import Mathlib

/-!
Verification of the Salesforce SOAP-login script (`src/main.py`).

The program is embedded shallowly:

* XML element trees (the output of `xml.etree.ElementTree.fromstring`) are
  the mutual inductive types `Elem` / `ElemList`; an element has a
  (namespace-qualified) tag, an optional text content (`none` for empty
  elements, as in ElementTree), and its children in document order.
* `ET.fromstring` itself is Python standard-library code, not repository
  code; its outcome on the input string is taken as the input of the parser
  model: `Except Unit Elem`, where `.error ()` is an `ET.ParseError`.
* `root.find(".//ns:tag", namespaces)` is `root_find`: the first strict
  descendant (document order) whose qualified tag matches.
* Python exceptions are modelled with `Except PyExc`; a caught exception is
  turned back into a normal result exactly where the source has a handler.
* The HTTP layer (`requests`) is abstracted as a `transport` function from
  the built request to an outcome: either a response (status code plus the
  parse outcome of its body, the only use the program makes of the body) or
  a raised exception (network failure / timeout).  The list of issued
  requests is returned alongside the result, so "exactly one request, no
  retry" is provable.
-/

mutual
/-- An XML element as produced by `ElementTree`: qualified tag, optional
text (`none` for an empty element), children in document order. -/
inductive Elem where
  | mk : String → Option String → ElemList → Elem

/-- A list of XML elements (children of an element, in document order). -/
inductive ElemList where
  | nil : ElemList
  | cons : Elem → ElemList → ElemList
end

def Elem.tag : Elem → String
  | .mk t _ _ => t

def Elem.text : Elem → Option String
  | .mk _ tx _ => tx

def Elem.children : Elem → ElemList
  | .mk _ _ ch => ch

mutual
/-- First match for a qualified tag at `e` or among its descendants,
document order (`e` itself first, then its subtree). -/
def findE (tag : String) : Elem → Option Elem
  | .mk t tx ch =>
    if t = tag then some (.mk t tx ch) else findL tag ch

/-- First match for a qualified tag in a forest, document order: an element
and its subtree are searched before later siblings. -/
def findL (tag : String) : ElemList → Option Elem
  | .nil => none
  | .cons e rest =>
    match findE tag e with
    | some r => some r
    | none => findL tag rest
end

mutual
/-- Whether `e` or one of its descendants carries the qualified tag. -/
def memE (tag : String) : Elem → Bool
  | .mk t _ ch => t = tag || memL tag ch

/-- Whether some element of the forest (at any depth) carries the tag. -/
def memL (tag : String) : ElemList → Bool
  | .nil => false
  | .cons e rest => memE tag e || memL tag rest
end

/-- Qualified tag matched by `.//ns:sessionId` under the namespace map
`ns = urn:partner.soap.sforce.com` (ElementTree writes qualified tags as
the namespace in braces followed by the local name). -/
def sessionIdTag : String := "\x7burn:partner.soap.sforce.com\x7dsessionId"

/-- Qualified tag matched by `.//ns:serverUrl` (see `sessionIdTag`). -/
def serverUrlTag : String := "\x7burn:partner.soap.sforce.com\x7dserverUrl"

/-- `root.find(".//ns:tag", namespaces)`: the first matching strict
descendant of `root` in document order; the root element itself is not
matched by the `.//` path. -/
def root_find (root : Elem) (tag : String) : Option Elem :=
  findL tag root.children

/-- The Python exceptions the model distinguishes: `TypeError` (raised by
slicing `None`) and a `requests` exception (network failure / timeout). -/
inductive PyExc where
  | typeError
  | requestException
deriving DecidableEq, Repr

/-- The `(session_id, server_url)` pair the script returns; each component
is a string or Python `None`. -/
abbrev LoginResult := Option String × Option String

/-- Outcome of `ET.fromstring` on an input string: the parsed root element,
or `.error ()` for the `ET.ParseError` raised on malformed XML. -/
abbrev XmlOutcome := Except Unit Elem

/-- `parse_login_response` (src/main.py, lines 60-99), taken at the
`ET.fromstring` boundary: its argument is the parse outcome of the input
string.  A `ParseError` is caught and yields `(None, None)`.  Otherwise the
two `root.find` lookups run; if either misses, the result is
`(None, None)`.  When both hit, the debug print slices `session_id[:20]`,
which raises `TypeError` when that text is `None`; the handler catches only
`ET.ParseError`, so the `TypeError` escapes (modelled as `.error`). -/
def parse_login_response (doc : XmlOutcome) : Except PyExc LoginResult :=
  match doc with
  | .error _ => .ok (none, none)
  | .ok root =>
    match root_find root sessionIdTag, root_find root serverUrlTag with
    | some se, some ue =>
      match se.text with
      | none => .error .typeError
      | some s => .ok (some s, ue.text)
    | _, _ => .ok (none, none)

/-- An outbound HTTP request as the script assembles it. -/
structure HttpRequest where
  url : String
  headers : List (String × String)
  data : String
  timeout : Option Nat
deriving DecidableEq, Repr

/-- Outcome of `requests.post`: a response (status code, and the body
represented by its `ET.fromstring` outcome, the only use the program makes
of it), or a raised exception (connection error / 30-second timeout). -/
inductive TransportResult where
  | response (status : Nat) (body : XmlOutcome)
  | raise

/-- The sandbox login endpoint (src/main.py, line 21). -/
def sandbox_login_url : String :=
  "https://mysandbox.my.salesforce.com/services/Soap/u/60.0"

/-- The production login endpoint (src/main.py, line 23). -/
def production_login_url : String :=
  "https://login.salesforce.com/services/Soap/u/60.0"

/-- Endpoint selection (src/main.py, lines 20-23). -/
def login_url (is_sandbox : Bool) : String :=
  if is_sandbox then sandbox_login_url else production_login_url

/-- The envelope template text before the `username` splice point. -/
def envelopeBeforeUsername : String :=
  "<?xml version=\"1.0\" encoding=\"utf-8\"?>\n<soapenv:Envelope xmlns:soapenv=\"http://schemas.xmlsoap.org/soap/envelope/\" xmlns:urn=\"urn:partner.soap.sforce.com\">\n    <soapenv:Header/>\n    <soapenv:Body>\n        <urn:login>\n            <urn:username>"

/-- The envelope template text between the `username` and `password`
splice points. -/
def envelopeBetween : String :=
  "</urn:username>\n            <urn:password>"

/-- The envelope template text after the `password`+`security_token`
splice point. -/
def envelopeAfterPassword : String :=
  "</urn:password>\n        </urn:login>\n    </soapenv:Body>\n</soapenv:Envelope>"

/-- The f-string SOAP envelope (src/main.py, lines 26-35): raw
concatenation, no XML escaping of the credentials. -/
def soap_body (username password security_token : String) : String :=
  envelopeBeforeUsername ++ username ++ envelopeBetween ++
    password ++ security_token ++ envelopeAfterPassword

/-- The headers set on the login POST (src/main.py, lines 38-41). -/
def login_headers : List (String × String) :=
  [("Content-Type", "text/xml; charset=UTF-8"), ("SOAPAction", "login")]

/-- The POST request `requests.post(login_url, data=soap_body,
headers=headers, timeout=30)` assembles (src/main.py, line 45). -/
def loginRequest (username password security_token : String)
    (is_sandbox : Bool) : HttpRequest :=
  { url := login_url is_sandbox
    headers := login_headers
    data := soap_body username password security_token
    timeout := some 30 }

/-- The body of the `try` block (src/main.py, lines 43-55): issue the POST;
a raised transport exception propagates; on status 200 parse the body
(whose own uncaught `TypeError` also propagates); otherwise `(None, None)`. -/
def login_attempt (req : HttpRequest)
    (transport : HttpRequest → TransportResult) : Except PyExc LoginResult :=
  match transport req with
  | .raise => .error .requestException
  | .response status body =>
    if status = 200 then parse_login_response body
    else .ok (none, none)

/-- `get_salesforce_session_id` (src/main.py, lines 5-58): build the
request, run the `try` block, and let the catch-all `except Exception`
turn any raised exception into `(None, None)`.  The second component is
the list of requests handed to the transport: always exactly one. -/
def get_salesforce_session_id (username password security_token : String)
    (is_sandbox : Bool) (transport : HttpRequest → TransportResult) :
    Except PyExc LoginResult × List HttpRequest :=
  let req := loginRequest username password security_token is_sandbox
  (match login_attempt req transport with
   | .ok r => .ok r
   | .error _ => .ok (none, none),
   [req])

/-- Python truthiness of an optional string: `None` and `""` are falsy. -/
def truthy : Option String → Bool
  | none => false
  | some s => !s.isEmpty

/-- The text before the first occurrence of (nonempty) `sep` together with
the text after it; `none` when `sep` does not occur. -/
def splitFirst (sep : List Char) : List Char → Option (List Char × List Char)
  | [] => none
  | c :: rest =>
    if sep.isPrefixOf (c :: rest) then some ([], (c :: rest).drop sep.length)
    else (splitFirst sep rest).map (fun p => (c :: p.1, p.2))

/-- Python `s.split(sep)` for nonempty `sep`, with explicit fuel bounding
the number of splits; `s.length` splits always suffice. -/
def pysplitAux (sep : List Char) : Nat → List Char → List (List Char)
  | 0, s => [s]
  | fuel + 1, s =>
    match splitFirst sep s with
    | none => [s]
    | some (pre, suf) => pre :: pysplitAux sep fuel suf

/-- Python `s.split(sep)` for nonempty `sep`. -/
def pysplit (sep s : List Char) : List (List Char) :=
  pysplitAux sep s.length s

/-- The REST base URL derivation (src/main.py, lines 118-119):
`server_url.split('/services/')[0]` followed by appending
`/services/data/v60.0`.  A Python split result is never empty, so the
index-0 access is the head. -/
def derive_rest_base (server_url : String) : String :=
  ((pysplit "/services/".toList server_url.toList).headD []).asString ++
    "/services/data/v60.0"

/-- Modelled from the spec wording: the prefix of the string strictly
before the first occurrence of `sep` (the whole string when `sep` does not
occur).  Used to compare the code's split-based derivation against the
spec's description. -/
def prefixBefore (sep : List Char) : List Char → List Char
  | [] => []
  | c :: rest =>
    if sep.isPrefixOf (c :: rest) then []
    else c :: prefixBefore sep rest

/-- The spec's description of the derived REST base URL: everything before
`/services/` in the server URL, then `/services/data/v60.0`. -/
def specRestBase (server_url : String) : String :=
  (prefixBefore "/services/".toList server_url.toList).asString ++
    "/services/data/v60.0"

/-- `test_rest_api_with_session` (src/main.py, lines 101-139), modelled up
to the GET request it issues: `none` when either input is falsy (the
early-return), otherwise the request built from the derived REST base URL
and the bearer header.  The GET carries no body and no timeout. -/
def test_rest_api_with_session (session_id server_url : Option String) :
    Option HttpRequest :=
  if truthy session_id && truthy server_url then
    match session_id, server_url with
    | some sid, some u =>
      some { url := derive_rest_base u ++ "/"
             headers := [("Authorization", "Bearer " ++ sid),
                         ("Content-Type", "application/json")]
             data := ""
             timeout := none }
    | _, _ => none
  else none

/-! ### Helper lemmas -/

mutual
/-- The descendant search misses an element's subtree exactly when no node
of that subtree carries the tag. -/
theorem findE_eq_none_iff (tag : String) (e : Elem) :
    findE tag e = none ↔ memE tag e = false := by
  cases e with
  | mk t tx ch =>
    by_cases h : t = tag
    · simp [findE, memE, h]
    · simp [findE, memE, h, findL_eq_none_iff tag ch]

/-- The forest search misses exactly when no node of the forest carries the
tag. -/
theorem findL_eq_none_iff (tag : String) (l : ElemList) :
    findL tag l = none ↔ memL tag l = false := by
  cases l with
  | nil => simp [findL, memL]
  | cons e rest =>
    cases hE : findE tag e with
    | some r =>
      have hm : memE tag e = true := by
        cases hb : memE tag e
        · exact absurd ((findE_eq_none_iff tag e).mpr hb) (by simp [hE])
        · rfl
      simp [findL, memL, hE, hm]
    | none =>
      have hm : memE tag e = false := (findE_eq_none_iff tag e).mp hE
      simp [findL, memL, hE, hm, findL_eq_none_iff tag rest]
end

/-- When `sep` does not occur, the prefix before it is the whole string. -/
theorem prefixBefore_of_splitFirst_none (sep s : List Char)
    (h : splitFirst sep s = none) : prefixBefore sep s = s := by
  induction s with
  | nil => rfl
  | cons c rest ih =>
    by_cases hp : sep.isPrefixOf (c :: rest)
    · simp [splitFirst, hp] at h
    · have h2 : splitFirst sep rest = none := by
        simpa [splitFirst, hp, Option.map_eq_none'] using h
      simp [prefixBefore, hp, ih h2]

/-- When `sep` first occurs after `pre`, the prefix before it is `pre`. -/
theorem prefixBefore_of_splitFirst_some (sep : List Char) (s pre suf : List Char)
    (h : splitFirst sep s = some (pre, suf)) : prefixBefore sep s = pre := by
  induction s generalizing pre suf with
  | nil => simp [splitFirst] at h
  | cons c rest ih =>
    by_cases hp : sep.isPrefixOf (c :: rest)
    · simp only [splitFirst, if_pos hp, Option.some.injEq, Prod.mk.injEq] at h
      simp [prefixBefore, hp, h.1.symm]
    · simp only [splitFirst, if_neg hp, Option.map_eq_some'] at h
      obtain ⟨⟨p1, p2⟩, hsp, heq⟩ := h
      simp only [Prod.mk.injEq] at heq
      simp [prefixBefore, hp, ih p1 p2 hsp, heq.1.symm]

/-- The head of a Python split is the prefix before the first occurrence of
the separator. -/
theorem pysplit_headD (sep s : List Char) :
    (pysplit sep s).headD [] = prefixBefore sep s := by
  unfold pysplit
  cases hl : s.length with
  | zero =>
    have hs : s = [] := List.length_eq_zero.mp hl
    subst hs
    rfl
  | succ n =>
    cases hsp : splitFirst sep s with
    | none => simp [pysplitAux, hsp, prefixBefore_of_splitFirst_none sep s hsp]
    | some p =>
      obtain ⟨pre, suf⟩ := p
      simp [pysplitAux, hsp, prefixBefore_of_splitFirst_some sep s pre suf hsp]

/-! ### Concrete documents used by witnesses and counterexamples -/

/-- A Partner-namespace `sessionId` element with text `ABC123`. -/
def sampleSessionElem : Elem := .mk sessionIdTag (some "ABC123") .nil

/-- A Partner-namespace `serverUrl` element with a realistic URL text. -/
def sampleServerUrlElem : Elem :=
  .mk serverUrlTag (some "https://x.my.salesforce.com/services/Soap/u/60.0/00D") .nil

/-- A canned successful login response: Envelope containing a Body
containing a loginResponse containing a result that holds the `serverUrl`
and `sessionId` elements — both at depth four, far from the root. -/
def sampleLoginResponseDoc : Elem :=
  .mk "\x7bhttp://schemas.xmlsoap.org/soap/envelope/\x7dEnvelope" none
    (.cons
      (.mk "\x7bhttp://schemas.xmlsoap.org/soap/envelope/\x7dBody" none
        (.cons
          (.mk "\x7burn:partner.soap.sforce.com\x7dloginResponse" none
            (.cons
              (.mk "\x7burn:partner.soap.sforce.com\x7dresult" none
                (.cons sampleServerUrlElem (.cons sampleSessionElem .nil)))
              .nil))
          .nil))
      .nil)

/-- A document whose `sessionId` element has text but whose `serverUrl`
element is empty (text `None`, as ElementTree reports empty elements). -/
def emptyServerUrlDoc : Elem :=
  .mk "\x7bhttp://schemas.xmlsoap.org/soap/envelope/\x7dEnvelope" none
    (.cons (.mk sessionIdTag (some "ABC123") .nil)
      (.cons (.mk serverUrlTag none .nil) .nil))

/-- A document with both elements present but an empty `sessionId`. -/
def emptySessionIdDoc : Elem :=
  .mk "\x7bhttp://schemas.xmlsoap.org/soap/envelope/\x7dEnvelope" none
    (.cons (.mk sessionIdTag none .nil)
      (.cons sampleServerUrlElem .nil))

/-- The all-or-nothing shape claimed for results: both components present,
or both absent. -/
def allOrNothing (r : LoginResult) : Prop :=
  (r.1.isSome ∧ r.2.isSome) ∨ (r.1 = none ∧ r.2 = none)

/-- Status-200 test on a transport outcome: true exactly for a response
with status code 200. -/
def isStatus200 : TransportResult → Bool
  | .response 200 _ => true
  | _ => false

/-! ### Claims -/

/-- C1: for every parsed document in which the Partner-namespace
`sessionId` lookup finds an element with text `S` and the `serverUrl`
lookup finds an element with text `U`, `parse_login_response` returns
exactly the pair `(S, U)`, both texts verbatim. -/
theorem C1_parse_extracts_verbatim (root se ue : Elem) (S U : String)
    (hs : root_find root sessionIdTag = some se) (hst : se.text = some S)
    (hu : root_find root serverUrlTag = some ue) (hut : ue.text = some U) :
    parse_login_response (.ok root) = .ok (some S, some U) := by
  simp [parse_login_response, hs, hu, hst, hut]

/-- Witness for C1 on a canned successful response document. -/
theorem C1_witness :
    root_find sampleLoginResponseDoc sessionIdTag = some sampleSessionElem ∧
    sampleSessionElem.text = some "ABC123" ∧
    root_find sampleLoginResponseDoc serverUrlTag = some sampleServerUrlElem ∧
    sampleServerUrlElem.text =
      some "https://x.my.salesforce.com/services/Soap/u/60.0/00D" ∧
    parse_login_response (.ok sampleLoginResponseDoc) =
      .ok (some "ABC123",
           some "https://x.my.salesforce.com/services/Soap/u/60.0/00D") :=
  ⟨rfl, rfl, rfl, rfl,
    C1_parse_extracts_verbatim sampleLoginResponseDoc sampleSessionElem
      sampleServerUrlElem "ABC123"
      "https://x.my.salesforce.com/services/Soap/u/60.0/00D"
      rfl rfl rfl rfl⟩

/-- C2 (counterexample): with the `sessionId` element carrying text
`ABC123` and the `serverUrl` element present but empty, the code returns
the partial pair `(some "ABC123", none)` — neither both-present nor
both-absent, so the all-or-nothing claim fails. -/
theorem C2_counterexample :
    parse_login_response (.ok emptyServerUrlDoc) = .ok (some "ABC123", none) ∧
    ¬ allOrNothing (some "ABC123", none) := by
  refine ⟨rfl, ?_⟩
  simp [allOrNothing]

/-- C2 (amended): a normally returned result never has only the
`serverUrl` component: whenever the `sessionId` component is absent the
whole result is `(None, None)`.  (A partial result with only the
`sessionId` component can occur, as the counterexample shows.) -/
theorem C2_amended_no_serverUrl_only (doc : XmlOutcome) (r : LoginResult)
    (h : parse_login_response doc = .ok r) (h1 : r.1 = none) :
    r = (none, none) := by
  cases doc with
  | error e =>
    simp [parse_login_response] at h
    exact h.symm
  | ok root =>
    cases hs : root_find root sessionIdTag with
    | none =>
      simp [parse_login_response, hs] at h
      exact h.symm
    | some se =>
      cases hu : root_find root serverUrlTag with
      | none =>
        simp [parse_login_response, hs, hu] at h
        exact h.symm
      | some ue =>
        cases ht : se.text with
        | none => simp [parse_login_response, hs, hu, ht] at h
        | some s =>
          simp [parse_login_response, hs, hu, ht] at h
          rw [← h] at h1
          simp at h1

/-- Witness for C2's amended theorem at a concrete document lacking both
elements. -/
theorem C2_amended_witness :
    parse_login_response (.ok (.mk "a" none .nil)) = .ok (none, none) ∧
    ((none, none) : LoginResult).1 = none ∧
    ((none, none) : LoginResult) = (none, none) :=
  ⟨rfl, rfl,
    C2_amended_no_serverUrl_only (.ok (.mk "a" none .nil)) (none, none) rfl rfl⟩

/-- C3: an `ET.ParseError` outcome (malformed XML, such as an unclosed
tag) is caught and yields `(None, None)`; no exception escapes. -/
theorem C3_malformed_xml_returns_empty (e : Unit) :
    parse_login_response (.error e) = .ok (none, none) := rfl

/-- C4: `parse_login_response` on a well-formed document returns
`(None, None)` exactly when the Partner-namespace `sessionId` element or
the `serverUrl` element (or both) occurs nowhere among the root's
descendants — the lookup.  Membership at any depth counts, not only among
the root's immediate children. -/
theorem C4_missing_element_iff_empty (root : Elem) :
    parse_login_response (.ok root) = .ok (none, none) ↔
      (memL sessionIdTag root.children = false ∨
       memL serverUrlTag root.children = false) := by
  constructor
  · intro h
    by_contra hc
    push_neg at hc
    obtain ⟨h1, h2⟩ := hc
    have m1 : memL sessionIdTag root.children = true := by
      cases hb : memL sessionIdTag root.children
      · exact absurd hb h1
      · rfl
    have m2 : memL serverUrlTag root.children = true := by
      cases hb : memL serverUrlTag root.children
      · exact absurd hb h2
      · rfl
    cases hfs : root_find root sessionIdTag with
    | none =>
      have := (findL_eq_none_iff sessionIdTag root.children).mp hfs
      rw [this] at m1
      exact Bool.false_ne_true m1
    | some se =>
      cases hfu : root_find root serverUrlTag with
      | none =>
        have := (findL_eq_none_iff serverUrlTag root.children).mp hfu
        rw [this] at m2
        exact Bool.false_ne_true m2
      | some ue =>
        cases ht : se.text with
        | none => simp [parse_login_response, hfs, hfu, ht] at h
        | some s => simp [parse_login_response, hfs, hfu, ht] at h
  · intro h
    rcases h with h | h
    · have hn : root_find root sessionIdTag = none :=
        (findL_eq_none_iff sessionIdTag root.children).mpr h
      simp [parse_login_response, hn]
    · have hn : root_find root serverUrlTag = none :=
        (findL_eq_none_iff serverUrlTag root.children).mpr h
      cases hfs : root_find root sessionIdTag with
      | none => simp [parse_login_response, hfs]
      | some se => simp [parse_login_response, hfs, hn]

/-- C5: whenever the transport outcome is not a status-200 response — a
non-200 status, or a raised network/timeout exception — the login returns
`(None, None)`, raises nothing (the result is a normal `.ok`), and issues
exactly one request (no retry). -/
theorem C5_transport_failure_empty_no_retry
    (username password security_token : String) (is_sandbox : Bool)
    (transport : HttpRequest → TransportResult)
    (h : isStatus200
      (transport (loginRequest username password security_token is_sandbox)) =
      false) :
    get_salesforce_session_id username password security_token is_sandbox
      transport =
      (.ok (none, none),
       [loginRequest username password security_token is_sandbox]) := by
  unfold get_salesforce_session_id login_attempt
  cases ht : transport (loginRequest username password security_token is_sandbox) with
  | raise => simp [ht]
  | response status body =>
    have hs : ¬ status = 200 := by
      intro h200
      subst h200
      rw [ht] at h
      simp [isStatus200] at h
    simp [ht, hs]

/-- Witness for C5: a transport answering 500 yields the empty result and
a single issued request. -/
theorem C5_witness :
    isStatus200 ((fun _ => TransportResult.response 500 (.error ()))
      (loginRequest "user" "pw" "tok" false)) = false ∧
    get_salesforce_session_id "user" "pw" "tok" false
      (fun _ => TransportResult.response 500 (.error ())) =
      (.ok (none, none), [loginRequest "user" "pw" "tok" false]) :=
  ⟨rfl,
    C5_transport_failure_empty_no_retry "user" "pw" "tok" false
      (fun _ => TransportResult.response 500 (.error ())) rfl⟩

/-- C6: independently of the credentials and of the transport's behaviour,
the single issued request targets the sandbox endpoint when
`is_sandbox = true` and the production endpoint when `is_sandbox = false`. -/
theorem C6_endpoint_selection (username password security_token : String)
    (transport : HttpRequest → TransportResult) :
    ((get_salesforce_session_id username password security_token true
        transport).2.map HttpRequest.url =
      ["https://mysandbox.my.salesforce.com/services/Soap/u/60.0"]) ∧
    ((get_salesforce_session_id username password security_token false
        transport).2.map HttpRequest.url =
      ["https://login.salesforce.com/services/Soap/u/60.0"]) :=
  ⟨rfl, rfl⟩

/-- C7: the split-based REST base derivation of the code agrees, on every
server URL, with the spec's description — the prefix before `/services/`
followed by `/services/data/v60.0` — and yields the documented value on
the spec's concrete example. -/
theorem C7_rest_base_derivation :
    (∀ server_url : String,
      derive_rest_base server_url = specRestBase server_url) ∧
    derive_rest_base
        "https://acme.my.salesforce.com/services/Soap/u/60.0/00Dxx" =
      "https://acme.my.salesforce.com/services/data/v60.0" := by
  constructor
  · intro s
    unfold derive_rest_base specRestBase
    rw [pysplit_headD]
  · decide

/-- C8: the envelope in the single request the login issues is the fixed
template around exactly two spliced fields: the raw username, and the raw
concatenation of password and security token — no transformation and no
XML escaping of either. -/
theorem C8_envelope_template (username password security_token : String)
    (is_sandbox : Bool) (transport : HttpRequest → TransportResult) :
    (get_salesforce_session_id username password security_token is_sandbox
        transport).2.map HttpRequest.data =
      [envelopeBeforeUsername ++ username ++ envelopeBetween ++
        (password ++ security_token) ++ envelopeAfterPassword] := by
  simp [get_salesforce_session_id, loginRequest, soap_body,
    String.append_assoc]

/-- C9: whatever the transport does — responds with any status and any
body, or raises — the login function returns a normal pair; the catch-all
handler lets no exception escape. -/
theorem C9_no_exception_escapes (username password security_token : String)
    (is_sandbox : Bool) (transport : HttpRequest → TransportResult) :
    ∃ r : LoginResult,
      (get_salesforce_session_id username password security_token is_sandbox
        transport).1 = .ok r := by
  cases h : login_attempt (loginRequest username password security_token
      is_sandbox) transport with
  | ok r => exact ⟨r, by simp [get_salesforce_session_id, h]⟩
  | error e => exact ⟨(none, none), by simp [get_salesforce_session_id, h]⟩

/-- C10: on a well-formed document whose Partner-namespace `sessionId`
element is present but empty (text `None`) while `serverUrl` is present,
`parse_login_response` raises `TypeError` (slicing `None` in the debug
print), which the `ParseError`-only handler does not catch, so it escapes
to the caller. -/
theorem C10_typeerror_on_empty_sessionId :
    parse_login_response (.ok emptySessionIdDoc) = .error .typeError := rfl
